import Mathlib

/-!
Shallow embedding of `cdk/s3_benchmarks/s3_benchmarks_stack.py` from the
aws-crt-s3-benchmarks repository, together with theorems checking the
specification's claims about it.

Python floats are modelled as exact rationals (the literal `0.15` becomes
`3/20`); Python strings are modelled as `List Char`.  A raised exception
is modelled with `Except`.  The CDK constructs the stack instantiates are
modelled as records capturing exactly the arguments the stack passes to
them; an `EcsEc2ContainerDefinition` is modelled as the `container` field
of the job definition it is passed to.
-/

/-- An instance-type descriptor from the `s3_benchmarks` module:
`{id, vcpu, mem_GiB}`.  The class itself lives outside the provided
sources; its shape is taken from the spec's data model ("id (string,
e.g. \"c5n.18xlarge\"), vcpu count, memory capacity"). -/
structure InstanceType where
  id : List Char
  vcpu : Nat
  mem_GiB : Nat
deriving DecidableEq

/-- `instance_type.id.replace('.', '-')` from line 33 of the stack file:
every separator character `'.'` is replaced by `'-'`.  Since the pattern
is a single character, Python's `str.replace` is a character map. -/
def replaceDotWithHyphen (s : List Char) : List Char :=
  s.map (fun c => if c = '.' then '-' else c)

/-- Modelled from the spec: `InstanceType.resource_name()` is defined in
the `s3_benchmarks` module, which is not among the provided sources.  The
spec says the canonical resource name is derived from the id by a total
character substitution ('.' → '-'), matching the derivation on line 33 of
the stack file ("c5n.18xlarge" -> "c5n-18xlarge"). -/
def InstanceType.resourceName (it : InstanceType) : List Char :=
  replaceDotWithHyphen it.id

/-- Modelled from the spec: the static configuration list
`s3_benchmarks.ALL_INSTANCE_TYPES` lives outside the provided sources.
The concrete instance types named by the spec and by the observations
recorded in `_max_container_memory`'s comment are c5n.18xlarge
(72 vCPU, 192 GiB), c5.large (2 vCPU, 4 GiB) and c6g.medium
(1 vCPU, 2 GiB). -/
def ALL_INSTANCE_TYPES : List InstanceType :=
  [⟨"c5n.18xlarge".toList, 72, 192⟩,
   ⟨"c5.large".toList, 2, 4⟩,
   ⟨"c6g.medium".toList, 1, 2⟩]

/-- `_max_container_memory`: given the instance type's total memory in
MiB, reserve `max(reserved_min_MiB, instance_MiB * reserved_ratio)` MiB
with `reserved_min_MiB = 512` and `reserved_ratio = 0.15 = 3/20`, and
return `floor(instance_MiB - reserved_MiB)` (the `cdk.Size` wrapper is
elided: its payload is this MiB count). -/
def maxContainerMemory (instance_MiB : ℚ) : ℤ :=
  ⌊instance_MiB - max 512 (instance_MiB * (3 / 20))⌋

/-- `ec2.InstanceArchitecture`: the two architecture tags of the CDK
enumeration. -/
inductive InstanceArchitecture where
  | ARM_64
  | X86_64
deriving DecidableEq

/-- `ecr_assets.Platform`: the two target platforms the stack uses. -/
inductive Platform where
  | LINUX_ARM64
  | LINUX_AMD64
deriving DecidableEq

/-- `ec2.InstanceType`: an id plus the `architecture` attribute the CDK
framework derives from the id (the derivation is framework code, so the
attribute is carried as data here). -/
structure Ec2InstanceType where
  id : List Char
  architecture : InstanceArchitecture
deriving DecidableEq

/-- `_ec2_instance_type_to_ecr_platform`: ARM_64 architecture maps to the
LINUX_ARM64 platform; any other architecture maps to LINUX_AMD64. -/
def ec2InstanceTypeToEcrPlatform (t : Ec2InstanceType) : Platform :=
  if t.architecture = InstanceArchitecture.ARM_64 then
    Platform.LINUX_ARM64
  else
    Platform.LINUX_AMD64

/-- Arguments the stack passes to `batch.ManagedEc2EcsComputeEnvironment`
(the VPC placement arguments are fixed and elided). -/
structure ComputeEnvModel where
  minvCpus : Nat
  maxvCpus : Nat
  instanceTypes : List (List Char)
  useOptimalInstanceClasses : Bool
deriving DecidableEq

/-- Arguments the stack passes to `batch.JobQueue`: the optional explicit
queue name and the ordered compute environments. -/
structure JobQueueModel where
  jobQueueName : Option (List Char)
  computeEnvironments : List (ComputeEnvModel × Nat)
deriving DecidableEq

/-- Arguments the stack passes to `batch.EcsEc2ContainerDefinition`. -/
structure ContainerDefnModel where
  dockerfile : List Char
  platform : Platform
  cpu : Nat
  memory_MiB : ℤ
  command : List (List Char)
deriving DecidableEq

/-- Arguments the stack passes to `batch.EcsJobDefinition`: the optional
explicit name, the container definition and the timeout in hours. -/
structure JobDefnModel where
  jobDefinitionName : Option (List Char)
  container : ContainerDefnModel
  timeoutHours : Nat
deriving DecidableEq

/-- A construct instantiated by the stack, tagged with its construct id. -/
inductive Resource where
  | vpc
  | computeEnv (constructId : List Char) (env : ComputeEnvModel)
  | jobQueue (constructId : List Char) (queue : JobQueueModel)
  | jobDefn (constructId : List Char) (defn : JobDefnModel)
  | cfnOutput (constructId : List Char) (value : List Char)
deriving DecidableEq

/-- The ambient configuration the stack reads: the `s3_benchmarks`
module's instance-type list and timeout constants (their values live
outside the provided sources), and the CDK framework's id-to-architecture
derivation. -/
structure Config where
  allInstanceTypes : List InstanceType
  archOf : List Char → InstanceArchitecture
  PER_INSTANCE_JOB_TIMEOUT_HOURS : Nat
  ORCHESTRATOR_JOB_TIMEOUT_HOURS : Nat

/-- The `ManagedEc2EcsComputeEnvironment` built by
`_define_per_instance_batch_job`. -/
def perInstanceComputeEnv (it : InstanceType) : ComputeEnvModel :=
  { minvCpus := 0
    maxvCpus := it.vcpu
    instanceTypes := [it.id]
    useOptimalInstanceClasses := false }

/-- The `JobQueue` built by `_define_per_instance_batch_job`, explicitly
named `instance_type.resource_name()`. -/
def perInstanceJobQueue (it : InstanceType) : JobQueueModel :=
  { jobQueueName := some it.resourceName
    computeEnvironments := [(perInstanceComputeEnv it, 0)] }

/-- The `EcsEc2ContainerDefinition` built by
`_define_per_instance_batch_job`: cpu is the instance vCPU count and
memory is `_max_container_memory(cdk.Size.gibibytes(instance_type.mem_GiB))`
(GiB to MiB multiplies by 1024). -/
def perInstanceContainerDefn (cfg : Config) (it : InstanceType) : ContainerDefnModel :=
  { dockerfile := "per_instance_job.Dockerfile".toList
    platform := ec2InstanceTypeToEcrPlatform ⟨it.id, cfg.archOf it.id⟩
    cpu := it.vcpu
    memory_MiB := maxContainerMemory ((it.mem_GiB : ℚ) * 1024)
    command := ["python3".toList, "/per_instance_job.py".toList] }

/-- The `EcsJobDefinition` built by `_define_per_instance_batch_job`,
explicitly named `instance_type.resource_name()`. -/
def perInstanceJobDefn (cfg : Config) (it : InstanceType) : JobDefnModel :=
  { jobDefinitionName := some it.resourceName
    container := perInstanceContainerDefn cfg it
    timeoutHours := cfg.PER_INSTANCE_JOB_TIMEOUT_HOURS }

/-- The constructs `_define_per_instance_batch_job` instantiates for one
instance type, with their construct ids. -/
def perInstanceResources (cfg : Config) (it : InstanceType) : List Resource :=
  [Resource.computeEnv ("PerInstanceComputeEnv-".toList ++ replaceDotWithHyphen it.id)
      (perInstanceComputeEnv it),
   Resource.jobQueue ("PerInstanceJobQueue-".toList ++ replaceDotWithHyphen it.id)
      (perInstanceJobQueue it),
   Resource.jobDefn ("PerInstanceJobDefn-".toList ++ replaceDotWithHyphen it.id)
      (perInstanceJobDefn cfg it)]

/-- Modelled from the spec: the orchestrator's fixed low-cost instance
type c6g.medium has 1 vCPU and 2 GiB memory (spec scenario
"{id: \"c6g.medium\", vcpu: 1, mem: 2 GiB}"; the stack file's comments
record the same numbers). -/
def orchestratorInstanceType : InstanceType :=
  ⟨"c6g.medium".toList, 1, 2⟩

/-- The `ManagedEc2EcsComputeEnvironment` built by
`_define_orchestrator_batch_job`: `maxv_cpus=1` for the single-vCPU
c6g.medium. -/
def orchestratorComputeEnv : ComputeEnvModel :=
  { minvCpus := 0
    maxvCpus := 1
    instanceTypes := [orchestratorInstanceType.id]
    useOptimalInstanceClasses := false }

/-- The orchestrator `JobQueue`: no explicit `job_queue_name`. -/
def orchestratorJobQueue : JobQueueModel :=
  { jobQueueName := none
    computeEnvironments := [(orchestratorComputeEnv, 0)] }

/-- The orchestrator `EcsEc2ContainerDefinition`: `cpu=1`,
`memory=cdk.Size.mebibytes(256)`. -/
def orchestratorContainerDefn (cfg : Config) : ContainerDefnModel :=
  { dockerfile := "orchestrator_job.Dockerfile".toList
    platform := ec2InstanceTypeToEcrPlatform
      ⟨orchestratorInstanceType.id, cfg.archOf orchestratorInstanceType.id⟩
    cpu := 1
    memory_MiB := 256
    command := ["python3".toList, "/orchestrator_job.py".toList] }

/-- The orchestrator `EcsJobDefinition`: no explicit
`job_definition_name`. -/
def orchestratorJobDefn (cfg : Config) : JobDefnModel :=
  { jobDefinitionName := none
    container := orchestratorContainerDefn cfg
    timeoutHours := cfg.ORCHESTRATOR_JOB_TIMEOUT_HOURS }

/-- The constructs `_define_orchestrator_batch_job` instantiates. -/
def orchestratorResources (cfg : Config) : List Resource :=
  [Resource.computeEnv "OrchestratorComputeEnv".toList orchestratorComputeEnv,
   Resource.jobQueue "OrchestratorJobQueue".toList orchestratorJobQueue,
   Resource.jobDefn "OrchestratorJobDefn".toList (orchestratorJobDefn cfg)]

/-- The failure `subprocess.run(..., check=True)` raises when
`git rev-parse HEAD` exits nonzero (e.g. outside a checkout). -/
inductive GitError where
  | calledProcessError (returncode : ℤ)
deriving DecidableEq

/-- Python's `str.strip()`: drop leading and trailing whitespace. -/
def pyStrip (s : List Char) : List Char :=
  ((s.dropWhile Char.isWhitespace).reverse.dropWhile Char.isWhitespace).reverse

/-- `_add_git_commit_cfn_output`: run `git rev-parse HEAD` (its outcome is
the argument), let any failure propagate (`check=True`), and otherwise
emit a `CfnOutput` whose value is the stripped stdout.  There is no
fallback branch. -/
def addGitCommitCfnOutput (runResult : Except GitError (List Char)) :
    Except GitError Resource :=
  match runResult with
  | Except.error e => Except.error e
  | Except.ok stdout => Except.ok (Resource.cfnOutput "GitCommit".toList (pyStrip stdout))

/-- `S3BenchmarksStack.__init__`: instantiate the VPC, one resource set
per configured instance type, the orchestrator resource set, and the git
commit output; a git failure propagates out of stack generation. -/
def generateStack (cfg : Config) (gitRunResult : Except GitError (List Char)) :
    Except GitError (List Resource) :=
  match addGitCommitCfnOutput gitRunResult with
  | Except.error e => Except.error e
  | Except.ok gitOutput =>
      Except.ok (Resource.vpc ::
        (cfg.allInstanceTypes.flatMap (perInstanceResources cfg) ++
          orchestratorResources cfg ++ [gitOutput]))

/-- A concrete configuration with an empty instance-type list, for
closed-statement checks. -/
def emptyConfig : Config :=
  { allInstanceTypes := []
    archOf := fun _ => InstanceArchitecture.X86_64
    PER_INSTANCE_JOB_TIMEOUT_HOURS := 1
    ORCHESTRATOR_JOB_TIMEOUT_HOURS := 1 }

/-- C1 (counterexample): on the c5n.18xlarge scenario the code does not
return `196608 − 29491 = 167117` MiB.  The reserved amount is the exact
product `196608 × 0.15 = 29491.2` MiB — the code floors only the final
difference, not the reserved amount — so the container memory is
`floor(196608 − 29491.2) = 167116` MiB. -/
theorem claim1_counterexample : maxContainerMemory (192 * 1024) ≠ 167117 := by
  unfold maxContainerMemory
  rw [max_eq_right (by norm_num)]
  norm_num [Int.floor_eq_iff]

/-- C1 (amended): for the instance type with id "c5n.18xlarge", vcpu 72
and memory 192 GiB (196608 MiB), generation derives the resource name
"c5n-18xlarge", a reserved memory of `max(512, 0.15×196608) = 29491.2`
MiB, and a container memory of `floor(196608 − 29491.2) = 167116` MiB. -/
theorem claim1_scenario :
    InstanceType.resourceName ⟨"c5n.18xlarge".toList, 72, 192⟩ = "c5n-18xlarge".toList ∧
      max 512 ((196608 : ℚ) * (3 / 20)) = 294912 / 10 ∧
      maxContainerMemory (192 * 1024) = 167116 := by
  refine ⟨by decide, ?_, ?_⟩
  · rw [max_eq_right (by norm_num)]
    norm_num
  · unfold maxContainerMemory
    rw [max_eq_right (by norm_num)]
    norm_num [Int.floor_eq_iff]

/-- C2: at total memory 512 MiB the reserved overhead
`max(512, 0.15×512) = 512` equals the total, yet `_max_container_memory`
returns the value 0 rather than failing; at total memory 100 MiB it
returns the negative value −412.  The code has no error path at all, so
the claimed `ConfigurationError` never occurs. -/
theorem claim2_no_failure_on_small_instances :
    maxContainerMemory 512 = 0 ∧ maxContainerMemory 100 = -412 := by
  constructor <;>
    · unfold maxContainerMemory
      rw [max_eq_left (by norm_num)]
      norm_num

/-- C3: `_max_container_memory` returns total minus
`max(512, 15% of total)` floored to a whole MiB (a value in ℤ, hence a
whole unit), the result is strictly less than the total, and the function
is pure: equal inputs give equal outputs. -/
theorem claim3_container_memory_formula :
    ∀ t t' : ℚ, t = t' →
      (maxContainerMemory t = ⌊t - max 512 (t * (3 / 20))⌋ ∧
        (maxContainerMemory t : ℚ) < t ∧
        maxContainerMemory t = maxContainerMemory t') := by
  intro t t' ht
  subst ht
  refine ⟨rfl, ?_, rfl⟩
  have h1 : (⌊t - max 512 (t * (3 / 20))⌋ : ℚ) ≤ t - max 512 (t * (3 / 20)) :=
    Int.floor_le _
  have h2 : (512 : ℚ) ≤ max 512 (t * (3 / 20)) := le_max_left _ _
  unfold maxContainerMemory
  linarith

/-- C3 (witness): the theorem applied at the 2 GiB scenario. -/
theorem claim3_witness : (maxContainerMemory 2048 : ℚ) < 2048 :=
  (claim3_container_memory_formula 2048 2048 rfl).2.1

/-- C4 (counterexample): with the empty instance-type list the generated
stack is not exactly the orchestrator resource triple plus the git-commit
output: the VPC is also produced. -/
theorem claim4_counterexample :
    generateStack emptyConfig (Except.ok "abc0123".toList) =
        Except.ok (Resource.vpc ::
          (orchestratorResources emptyConfig ++
            [Resource.cfnOutput "GitCommit".toList "abc0123".toList])) ∧
      Resource.vpc ::
          (orchestratorResources emptyConfig ++
            [Resource.cfnOutput "GitCommit".toList "abc0123".toList]) ≠
        orchestratorResources emptyConfig ++
          [Resource.cfnOutput "GitCommit".toList "abc0123".toList] := by
  exact ⟨rfl, by decide⟩

/-- C4 (amended): when the configured instance-type list is empty, stack
generation produces exactly the VPC, the orchestrator resource triple and
the git-commit metadata output, and nothing else. -/
theorem claim4_empty_instance_list :
    ∀ (cfg : Config) (stdout : List Char), cfg.allInstanceTypes = [] →
      generateStack cfg (Except.ok stdout) =
        Except.ok (Resource.vpc ::
          (orchestratorResources cfg ++
            [Resource.cfnOutput "GitCommit".toList (pyStrip stdout)])) := by
  intro cfg stdout h
  simp [generateStack, addGitCommitCfnOutput, h]

/-- C4 (witness): the amended theorem applied to the concrete empty
configuration. -/
theorem claim4_witness :
    generateStack emptyConfig (Except.ok "abc0123".toList) =
      Except.ok (Resource.vpc ::
        (orchestratorResources emptyConfig ++
          [Resource.cfnOutput "GitCommit".toList (pyStrip "abc0123".toList)])) :=
  claim4_empty_instance_list emptyConfig "abc0123".toList rfl

/-- C5: every identifier containing at least one separator '.' maps to a
derived resource name containing zero separators, and over the configured
instance-type list the derived names are pairwise distinct. -/
theorem claim5_resource_naming :
    (∀ id : List Char, 1 ≤ id.count '.' →
        (replaceDotWithHyphen id).count '.' = 0) ∧
      (ALL_INSTANCE_TYPES.map InstanceType.resourceName).Nodup := by
  constructor
  · intro id _
    rw [List.count_eq_zero]
    intro hmem
    rcases List.mem_map.mp hmem with ⟨c, -, hc⟩
    by_cases h : c = '.'
    · rw [if_pos h] at hc
      exact absurd hc (by decide)
    · rw [if_neg h] at hc
      exact h hc
  · decide

/-- C5 (witness): the separator-elimination part applied to
"c5n.18xlarge". -/
theorem claim5_witness :
    (replaceDotWithHyphen "c5n.18xlarge".toList).count '.' = 0 :=
  claim5_resource_naming.1 "c5n.18xlarge".toList (by decide)

/-- C6: in every per-instance triple the compute environment's `maxv_cpus`
and the container definition's `cpu` both equal the instance type's vCPU
count, and in the orchestrator triple both equal 1, the vCPU count of the
underlying c6g.medium instance type. -/
theorem claim6_cpu_capacity_invariant :
    ∀ (cfg : Config) (it : InstanceType),
      ((perInstanceComputeEnv it).maxvCpus = it.vcpu ∧
        (perInstanceJobDefn cfg it).container.cpu = it.vcpu) ∧
      (orchestratorComputeEnv.maxvCpus = (orchestratorJobDefn cfg).container.cpu ∧
        orchestratorComputeEnv.maxvCpus = orchestratorInstanceType.vcpu) :=
  fun _ _ => ⟨⟨rfl, rfl⟩, rfl, rfl⟩

/-- C7: the platform selection returns one of exactly two fixed values:
ARM_64 architecture maps to LINUX_ARM64 and every other architecture maps
to LINUX_AMD64. -/
theorem claim7_platform_selection :
    ∀ t : Ec2InstanceType,
      (ec2InstanceTypeToEcrPlatform t = Platform.LINUX_ARM64 ∨
        ec2InstanceTypeToEcrPlatform t = Platform.LINUX_AMD64) ∧
      (t.architecture = InstanceArchitecture.ARM_64 →
        ec2InstanceTypeToEcrPlatform t = Platform.LINUX_ARM64) ∧
      (t.architecture ≠ InstanceArchitecture.ARM_64 →
        ec2InstanceTypeToEcrPlatform t = Platform.LINUX_AMD64) := by
  intro t
  unfold ec2InstanceTypeToEcrPlatform
  by_cases h : t.architecture = InstanceArchitecture.ARM_64 <;> simp [h]

/-- C7 (witness): the theorem applied to an ARM_64-architecture instance
type and to an X86_64 one. -/
theorem claim7_witness :
    ec2InstanceTypeToEcrPlatform ⟨"c6g.medium".toList, InstanceArchitecture.ARM_64⟩ =
        Platform.LINUX_ARM64 ∧
      ec2InstanceTypeToEcrPlatform ⟨"c5.large".toList, InstanceArchitecture.X86_64⟩ =
        Platform.LINUX_AMD64 :=
  ⟨(claim7_platform_selection ⟨"c6g.medium".toList, InstanceArchitecture.ARM_64⟩).2.1 rfl,
   (claim7_platform_selection ⟨"c5.large".toList, InstanceArchitecture.X86_64⟩).2.2
     (by decide)⟩

/-- C8: on success `_add_git_commit_cfn_output` emits the output whose
value is the stripped commit hash; on failure (no checkout) it propagates
the error with no fallback value, and the failure aborts stack generation
as well. -/
theorem claim8_git_commit_metadata :
    (∀ stdout : List Char,
        addGitCommitCfnOutput (Except.ok stdout) =
          Except.ok (Resource.cfnOutput "GitCommit".toList (pyStrip stdout))) ∧
      (∀ e : GitError, addGitCommitCfnOutput (Except.error e) = Except.error e) ∧
      (∀ (cfg : Config) (e : GitError),
        generateStack cfg (Except.error e) = Except.error e) :=
  ⟨fun _ => rfl, fun _ => rfl, fun _ _ => rfl⟩

/-- C9: `_max_container_memory` is monotone non-decreasing in the total
instance memory. -/
theorem claim9_monotone :
    ∀ a b : ℚ, a ≤ b → maxContainerMemory a ≤ maxContainerMemory b := by
  intro a b hab
  unfold maxContainerMemory
  apply Int.floor_le_floor
  have h1 : a * (3 / 20) ≤ b * (3 / 20) := by linarith
  rcases le_total (a * (3 / 20)) 512 with ha | ha <;>
    rcases le_total (b * (3 / 20)) 512 with hb | hb
  · rw [max_eq_left ha, max_eq_left hb]
    linarith
  · rw [max_eq_left ha, max_eq_right hb]
    linarith
  · rw [max_eq_right ha, max_eq_left hb]
    linarith
  · rw [max_eq_right ha, max_eq_right hb]
    linarith

/-- C9 (witness): the theorem applied at 2048 ≤ 196608 MiB. -/
theorem claim9_witness :
    maxContainerMemory 2048 ≤ maxContainerMemory 196608 :=
  claim9_monotone 2048 196608 (by norm_num)

/-- C10: each per-instance job queue and job definition carries the
instance type's derived resource name as its explicit name, and the two
names are equal; the orchestrator's queue and definition carry no
explicit name. -/
theorem claim10_explicit_names :
    ∀ (cfg : Config) (it : InstanceType),
      (perInstanceJobQueue it).jobQueueName = some it.resourceName ∧
      (perInstanceJobDefn cfg it).jobDefinitionName = some it.resourceName ∧
      orchestratorJobQueue.jobQueueName = none ∧
      (orchestratorJobDefn cfg).jobDefinitionName = none :=
  fun _ _ => ⟨rfl, rfl, rfl, rfl⟩
